import Mathlib

/-!
Shallow embedding of the Movie-Search application core, translated from the
TypeScript sources:

  * `src/app/movie/[id].tsx`      — favorite toggle coordinator (`toggleFavorite`,
    `checkIfFavorite`) over the persistent favorites store (`AsyncStorage` under
    the single key `favorites`, holding a JSON-serialized array of movie
    summaries).
  * `src/app/(tabs)/index.tsx`    — the search screen's session state
    (`query`, `movies`, `page`, `loading`, `error`, `hasMore`) and its
    operations `searchMovies` (split into the synchronous issue phase and the
    response-handling phase, since the fetch is asynchronous), `handleSearch`
    and `loadMore`.

Machine integers do not occur (pages and counts are small naturals); JS strings
are Lean `String`s; the fallible storage operations are embedded with `Except`.
-/

/-- Movie summary as stored in the favorites list and rendered in list views:
exactly the four fields pushed by `toggleFavorite` in `src/app/movie/[id].tsx`
(lines 76–81) and the `Movie` interface of `src/app/(tabs)/index.tsx`. -/
structure Movie where
  imdbID : String
  title : String
  year : String
  poster : String
deriving Repr, DecidableEq

/-- Serialized blob stored under the `favorites` key: either a well-formed
JSON array of movie summaries or a malformed string on which `JSON.parse`
throws. -/
inductive Blob where
  | good (favorites : List Movie)
  | malformed
deriving Repr, DecidableEq

/-- State of `AsyncStorage` restricted to the single `favorites` key, together
with fault flags describing whether the next `getItem` / `setItem` call
throws. -/
structure StorageEnv where
  blob : Option Blob
  readFails : Bool
  writeFails : Bool
deriving Repr, DecidableEq

/-- `AsyncStorage.getItem('favorites')`: returns the stored blob (or `none`
when nothing is stored), or throws. -/
def getItem (env : StorageEnv) : Except Unit (Option Blob) :=
  if env.readFails then Except.error () else Except.ok env.blob

/-- `JSON.parse` of a stored blob: yields the favorites list on a well-formed
blob and throws on a malformed one. -/
def parseBlob : Blob → Except Unit (List Movie)
  | Blob.good favorites => Except.ok favorites
  | Blob.malformed => Except.error ()

/-- `AsyncStorage.setItem('favorites', JSON.stringify(favorites))`: replaces
the stored blob, or throws. -/
def setItem (env : StorageEnv) (b : Blob) : Except Unit StorageEnv :=
  if env.writeFails then Except.error () else
    Except.ok { env with blob := some b }

/-- `toggleFavorite` from `src/app/movie/[id].tsx` lines 66–89, with the
storage environment and the in-memory `isFavorite` flag passed explicitly.
The body reads the stored list (`null` parses to `[]`), removes every entry
with the movie's id when `isFavorite` holds and appends the movie's summary
otherwise, writes the list back, and only then flips the flag; the enclosing
`try`/`catch` turns any thrown error into a logged no-op, leaving storage and
flag unchanged. Returns the storage state and the flag after the call. -/
def toggleFavorite (movie : Movie) (env : StorageEnv) (isFavorite : Bool) :
    StorageEnv × Bool :=
  match getItem env with
  | Except.error _ => (env, isFavorite)
  | Except.ok stored =>
    match (match stored with
           | some b => parseBlob b
           | none => Except.ok []) with
    | Except.error _ => (env, isFavorite)
    | Except.ok favorites =>
      let favorites' :=
        if isFavorite then
          favorites.filter (fun fav => fav.imdbID != movie.imdbID)
        else
          favorites ++ [movie]
      match setItem env (Blob.good favorites') with
      | Except.error _ => (env, isFavorite)
      | Except.ok env' => (env', !isFavorite)

/-- `checkIfFavorite` from `src/app/movie/[id].tsx` lines 54–64 (membership
test used to initialise the `isFavorite` flag):
`favorites.some((fav) => fav.imdbID === movieId)`. -/
def checkIfFavorite (favorites : List Movie) (movieId : String) : Bool :=
  favorites.any (fun fav => fav.imdbID == movieId)

/-- Well-formed storage holding exactly the favorites list `L`, with no
pending faults. -/
def goodEnv (L : List Movie) : StorageEnv :=
  { blob := some (Blob.good L), readFails := false, writeFails := false }

/-- The favorites list currently persisted in a storage state (empty when
nothing well-formed is stored, matching the store's fail-soft read). -/
def storedList (env : StorageEnv) : List Movie :=
  match env.blob with
  | some (Blob.good favorites) => favorites
  | _ => []

theorem toggle_good (movie : Movie) (L : List Movie) (b : Bool) :
    toggleFavorite movie (goodEnv L) b =
      (goodEnv (if b then L.filter (fun fav => fav.imdbID != movie.imdbID)
                else L ++ [movie]), !b) := rfl

theorem storedList_goodEnv (L : List Movie) : storedList (goodEnv L) = L := rfl

/-- One favorite toggle performed against well-formed storage holding `L`,
with the in-memory flag reflecting the movie's current membership in `L`
(as `checkIfFavorite` computes it). Yields the newly persisted list. -/
def toggleStep (L : List Movie) (m : Movie) : List Movie :=
  storedList (toggleFavorite m (goodEnv L) (checkIfFavorite L m.imdbID)).1

/-- The favorites-list uniqueness invariant: no two entries share an id. -/
def NoDupIds (L : List Movie) : Prop :=
  (L.map Movie.imdbID).Nodup

instance (L : List Movie) : Decidable (NoDupIds L) := by
  unfold NoDupIds; infer_instance

theorem toggleStep_eq (L : List Movie) (m : Movie) :
    toggleStep L m =
      if checkIfFavorite L m.imdbID then
        L.filter (fun fav => fav.imdbID != m.imdbID)
      else L ++ [m] := by
  unfold toggleStep
  rw [toggle_good]
  cases checkIfFavorite L m.imdbID <;> rfl

theorem toggleStep_nodup (L : List Movie) (m : Movie) (h : NoDupIds L) :
    NoDupIds (toggleStep L m) := by
  rw [toggleStep_eq]
  cases hb : checkIfFavorite L m.imdbID
  · simp only [hb, Bool.false_eq_true, if_false]
    unfold NoDupIds at h ⊢
    rw [List.map_append, List.nodup_append]
    refine ⟨h, List.nodup_singleton _, ?_⟩
    intro a ha hm
    simp only [List.map_cons, List.map_nil, List.mem_singleton] at hm
    subst hm
    rcases List.mem_map.mp ha with ⟨fav, hfav, hid⟩
    have hbeq : (fav.imdbID == m.imdbID) = true := beq_iff_eq.mpr hid
    have hc : checkIfFavorite L m.imdbID = true :=
      List.any_eq_true.mpr ⟨fav, hfav, hbeq⟩
    rw [hb] at hc
    exact Bool.false_ne_true hc
  · simp only [hb, if_true]
    exact ((List.filter_sublist L).map Movie.imdbID).nodup h

/-- Characters stripped by JavaScript `String.prototype.trim` (whitespace and
line terminators; the common subset suffices here). -/
def isJsWhitespace (c : Char) : Bool :=
  c == ' ' || c == '\t' || c == '\n' || c == '\r' || c == '\x0b' ||
    c == '\x0c' || c == '\xa0'

/-- JavaScript `s.trim()`: strip leading and trailing whitespace. -/
def jsTrim (s : String) : String :=
  String.mk (((s.toList.dropWhile isJsWhitespace).reverse.dropWhile
    isJsWhitespace).reverse)

/-- The search screen's React state from `src/app/(tabs)/index.tsx`
lines 25–30: `query`, `movies`, `page`, `loading`, `error`, `hasMore`. -/
structure SearchState where
  query : String
  movies : List Movie
  page : Nat
  loading : Bool
  error : Option String
  hasMore : Bool
deriving Repr, DecidableEq

/-- Initial state of the search screen (the `useState` defaults). -/
def initialState : SearchState :=
  { query := "", movies := [], page := 1, loading := false, error := none,
    hasMore := true }

/-- A pending fetch issued by `searchMovies`, carrying the query text and the
page number captured by the call's closure. -/
structure SearchRequest where
  query : String
  pageNum : Nat
deriving Repr, DecidableEq

/-- Outcome of one fetch to the catalog service, as `searchMovies`
discriminates it: `data.Response === 'True'` with a `Search` array and
`totalResults`; `data.Response === 'False'` with an optional `Error` string;
or a transport failure / non-2xx response (both reach the `catch`). The
string-encoded `totalResults` is modelled as the natural number JS coerces it
to in `data.totalResults > pageNum * 10`. -/
inductive FetchOutcome where
  | success (results : List Movie) (totalResults : Nat)
  | failure (errMsg : Option String)
  | networkError
deriving Repr, DecidableEq

/-- Synchronous prefix of `searchMovies(searchQuery, pageNum)`
(`src/app/(tabs)/index.tsx` lines 32–45): on a blank query clear the movie
list and the error and return without fetching; otherwise set `loading`,
clear `error`, and issue the fetch for `(searchQuery, pageNum)`. Returns the
updated state and the issued request, if any. -/
def searchMoviesStart (searchQuery : String) (pageNum : Nat)
    (st : SearchState) : SearchState × Option SearchRequest :=
  if (jsTrim searchQuery).isEmpty then
    ({ st with movies := [], error := none }, none)
  else
    ({ st with loading := true, error := none },
      some { query := searchQuery, pageNum := pageNum })

/-- Continuation of `searchMovies` once its fetch settles
(`src/app/(tabs)/index.tsx` lines 47–74): on `Response === 'True'` replace the
list (page 1) or append to it (later pages) and recompute `hasMore`; on
`Response === 'False'` clear the list only on page 1, set `hasMore` to false,
and set `error` to `data.Error` when present; on a thrown fetch or non-ok
response set the retryable error message and touch nothing else. The
`finally` clears `loading` in every case. `pageNum` is the closure-captured
page of the request being answered, not the current `page` state. -/
def searchMoviesResponse (pageNum : Nat) (out : FetchOutcome)
    (st : SearchState) : SearchState :=
  match out with
  | FetchOutcome.success results totalResults =>
    { st with
      movies := if pageNum == 1 then results else st.movies ++ results,
      hasMore := decide (totalResults > pageNum * 10),
      loading := false }
  | FetchOutcome.failure errMsg =>
    { st with
      movies := if pageNum == 1 then [] else st.movies,
      hasMore := false,
      error := match errMsg with
               | some e => some e
               | none => st.error,
      loading := false }
  | FetchOutcome.networkError =>
    { st with
      error := some "Failed to fetch movies. Please try again.",
      loading := false }

/-- `handleSearch` (`src/app/(tabs)/index.tsx` lines 77–81) after the user
typed `q` into the search box: `setPage(1)`, `setMovies([])`, then
`searchMovies(q, 1)`. -/
def handleSearch (q : String) (st : SearchState) :
    SearchState × Option SearchRequest :=
  searchMoviesStart q 1 { st with query := q, page := 1, movies := [] }

/-- `loadMore` (`src/app/(tabs)/index.tsx` lines 83–89): a no-op while
`loading` or once `hasMore` is false; otherwise advance `page` and call
`searchMovies(query, page + 1)`. -/
def loadMore (st : SearchState) : SearchState × Option SearchRequest :=
  if !st.loading && st.hasMore then
    searchMoviesStart st.query (st.page + 1) { st with page := st.page + 1 }
  else (st, none)

theorem mem_of_checkIfFavorite_false {L : List Movie} {movieId : String}
    (h : checkIfFavorite L movieId = false) :
    ∀ fav ∈ L, (fav.imdbID != movieId) = true := by
  intro fav hf
  cases hq : fav.imdbID == movieId
  · simp [bne, hq]
  · exfalso
    have hc : checkIfFavorite L movieId = true :=
      List.any_eq_true.mpr ⟨fav, hf, hq⟩
    rw [h] at hc
    exact Bool.false_ne_true hc

/-- Sample movie summary used in concrete scenarios. -/
def mA : Movie :=
  { imdbID := "tt001", title := "X", year := "2000", poster := "unavailable" }

/-- Second sample movie summary, with a distinct id. -/
def mB : Movie :=
  { imdbID := "tt002", title := "Y", year := "2001", poster := "N/A" }

/-- C1 fails as stated: with the favorites list `[mA, mB]` and the flag
consistently `true` for `mA`, toggling `mA` twice yields `[mB, mA]`, not the
original list — the removed entry is re-appended at the end, so the exact
prior order is not restored. -/
theorem C1_counterexample :
    checkIfFavorite [mA, mB] mA.imdbID = true ∧
    storedList (toggleFavorite mA
        (toggleFavorite mA (goodEnv [mA, mB]) true).1
        (toggleFavorite mA (goodEnv [mA, mB]) true).2).1 ≠ [mA, mB] := by
  decide

/-- C1 (amended): toggling twice with a consistent flag restores the original
membership flag; when the movie was not a favorite the list is restored
byte-for-byte, and when it was a favorite the double toggle keeps all other
entries in their original order but re-appends the movie's summary at the end
of the list. -/
theorem C1_toggle_twice (m : Movie) (L : List Movie) (b : Bool)
    (h : checkIfFavorite L m.imdbID = b) :
    ((toggleFavorite m
        (toggleFavorite m (goodEnv L) b).1
        (toggleFavorite m (goodEnv L) b).2).2 = b) ∧
    (b = false →
      storedList (toggleFavorite m
        (toggleFavorite m (goodEnv L) b).1
        (toggleFavorite m (goodEnv L) b).2).1 = L) ∧
    (b = true →
      storedList (toggleFavorite m
        (toggleFavorite m (goodEnv L) b).1
        (toggleFavorite m (goodEnv L) b).2).1 =
        L.filter (fun fav => fav.imdbID != m.imdbID) ++ [m]) := by
  cases b with
  | false =>
    refine ⟨rfl, fun _ => ?_, fun hc => absurd hc (by decide)⟩
    show (L ++ [m]).filter (fun fav => fav.imdbID != m.imdbID) = L
    rw [List.filter_append]
    have h1 : L.filter (fun fav => fav.imdbID != m.imdbID) = L :=
      List.filter_eq_self.mpr (mem_of_checkIfFavorite_false h)
    have h2 : [m].filter (fun fav => fav.imdbID != m.imdbID) = [] := by
      simp [List.filter]
    rw [h1, h2, List.append_nil]
  | true =>
    exact ⟨rfl, fun hc => absurd hc (by decide), fun _ => rfl⟩

theorem C1_toggle_twice_witness :
    checkIfFavorite [mB] mA.imdbID = false ∧
    storedList (toggleFavorite mA
      (toggleFavorite mA (goodEnv [mB]) false).1
      (toggleFavorite mA (goodEnv [mB]) false).2).1 = [mB] :=
  ⟨by decide, (C1_toggle_twice mA [mB] false (by decide)).2.1 rfl⟩

/-- C2: starting from a favorites list with no duplicate ids, any finite
sequence of toggles — each performed with the flag reflecting the movie's
current membership, as `checkIfFavorite` computes it — preserves the
no-duplicate-ids invariant. -/
theorem C2_no_duplicate_ids (L : List Movie) (ms : List Movie)
    (h : NoDupIds L) : NoDupIds (ms.foldl toggleStep L) := by
  induction ms generalizing L with
  | nil => exact h
  | cons m rest ih => exact ih _ (toggleStep_nodup L m h)

theorem C2_no_duplicate_ids_witness :
    NoDupIds ([] : List Movie) ∧
    NoDupIds ([mA, mA, mB, mA].foldl toggleStep []) :=
  ⟨by decide, C2_no_duplicate_ids [] [mA, mA, mB, mA] (by decide)⟩

/-- C10: a removing toggle (flag `true`) filters out every entry whose id
equals the toggled movie's id, so the stored list afterwards has zero entries
with that id — even when the previously stored list contained duplicates. -/
theorem C10_remove_filters_all (m : Movie) (L : List Movie) :
    (storedList (toggleFavorite m (goodEnv L) true).1).countP
      (fun fav => fav.imdbID == m.imdbID) = 0 := by
  have e : storedList (toggleFavorite m (goodEnv L) true).1 =
      L.filter (fun fav => fav.imdbID != m.imdbID) := by
    simp [toggle_good, storedList_goodEnv]
  rw [e, List.countP_eq_zero]
  intro fav hf hq
  have hne := (List.mem_filter.mp hf).2
  simp only [bne] at hne
  rw [hq] at hne
  exact absurd hne (by decide)

/-- C9: the toggle is atomic under faults — a throwing storage read, a
malformed stored blob (throwing `JSON.parse`), or a throwing storage write
each leave both the storage state and the in-memory flag exactly as they
were (the error is caught inside the handler, never propagated); and the
flag changes only when a write has completed successfully, in which case it
is flipped and a well-formed list has been persisted. -/
theorem C9_toggle_fault_atomicity (m : Movie) (env : StorageEnv) (b : Bool) :
    (env.readFails = true → toggleFavorite m env b = (env, b)) ∧
    (env.blob = some Blob.malformed → toggleFavorite m env b = (env, b)) ∧
    (env.writeFails = true → toggleFavorite m env b = (env, b)) ∧
    ((toggleFavorite m env b).2 ≠ b →
      env.readFails = false ∧ env.writeFails = false ∧
      ∃ favs, toggleFavorite m env b =
        ({ env with blob := some (Blob.good favs) }, !b)) := by
  rcases env with ⟨blob, r, w⟩
  cases r <;> cases w <;> rcases blob with _ | (favs | _) <;>
    simp [toggleFavorite, getItem, parseBlob, setItem]

theorem C9_toggle_fault_atomicity_witness :
    toggleFavorite mA
      { blob := some (Blob.good [mA]), readFails := true, writeFails := false }
      false =
    ({ blob := some (Blob.good [mA]), readFails := true, writeFails := false },
      false) :=
  (C9_toggle_fault_atomicity mA
    { blob := some (Blob.good [mA]), readFails := true, writeFails := false }
    false).1 rfl

/-- C3 fails on the code: `searchMovies` never compares a response against the
current query, so after `submitQuery("a")` then `submitQuery("b")`, delivering
"b"'s response and then "a"'s stale page-1 response leaves "a"'s results
displayed while the active query is `"b"` — the stale response is applied,
not discarded. Each request does carry the query and page it was issued for,
but the handler ignores them. -/
theorem C3_stale_response_applied :
    ((handleSearch "a" initialState).2 =
      some { query := "a", pageNum := 1 }) ∧
    ((handleSearch "b" (handleSearch "a" initialState).1).2 =
      some { query := "b", pageNum := 1 }) ∧
    ((searchMoviesResponse 1 (FetchOutcome.success [mA] 1)
        (searchMoviesResponse 1 (FetchOutcome.success [mB] 1)
          (handleSearch "b" (handleSearch "a" initialState).1).1)).query =
      "b") ∧
    ((searchMoviesResponse 1 (FetchOutcome.success [mA] 1)
        (searchMoviesResponse 1 (FetchOutcome.success [mB] 1)
          (handleSearch "b" (handleSearch "a" initialState).1).1)).movies =
      [mA]) ∧
    mA ≠ mB := by
  decide

/-- C4: on every successful search response for page `pageNum`, the session
sets `hasMore` exactly when `totalResults > pageNum * 10`. -/
theorem C4_hasMore_iff (st : SearchState) (pageNum : Nat)
    (results : List Movie) (total : Nat) :
    (searchMoviesResponse pageNum (FetchOutcome.success results total)
      st).hasMore = true ↔ total > pageNum * 10 := by
  simp [searchMoviesResponse]

/-- C5: `loadMore` is a no-op while `loading` holds or once `hasMore` is
false; otherwise it advances the page by one and issues the search for
`(query, page + 1)`; and every successful response for a page other than 1
appends to the accumulated list, so its length never decreases. -/
theorem C5_loadMore_pagination (st : SearchState) :
    (st.loading = true → loadMore st = (st, none)) ∧
    (st.hasMore = false → loadMore st = (st, none)) ∧
    (st.loading = false → st.hasMore = true →
      (jsTrim st.query).isEmpty = false →
      loadMore st =
        ({ st with page := st.page + 1, loading := true, error := none },
          some { query := st.query, pageNum := st.page + 1 })) ∧
    (∀ pageNum results total s, pageNum ≠ 1 →
      (searchMoviesResponse pageNum (FetchOutcome.success results total)
        s).movies = s.movies ++ results ∧
      s.movies.length ≤
        (searchMoviesResponse pageNum (FetchOutcome.success results total)
          s).movies.length) := by
  refine ⟨?_, ?_, ?_, ?_⟩
  · intro h
    simp [loadMore, h]
  · intro h
    simp [loadMore, h]
  · intro h1 h2 h3
    simp [loadMore, h1, h2, searchMoviesStart, h3]
  · intro pageNum results total s hp
    have hb : (pageNum == 1) = false := by simpa using hp
    refine ⟨by simp [searchMoviesResponse, hb], ?_⟩
    simp [searchMoviesResponse, hb]

theorem C5_loadMore_pagination_witness :
    loadMore { query := "q", movies := [], page := 1, loading := true,
               error := none, hasMore := true } =
      ({ query := "q", movies := [], page := 1, loading := true,
         error := none, hasMore := true }, none) :=
  (C5_loadMore_pagination
    { query := "q", movies := [], page := 1, loading := true,
      error := none, hasMore := true }).1 rfl

/-- C6: submitting a blank (empty or whitespace-only) query issues no fetch,
leaves the movie list empty and clears the error. -/
theorem C6_blank_query (q : String) (st : SearchState)
    (h : (jsTrim q).isEmpty = true) :
    handleSearch q st =
      ({ st with query := q, page := 1, movies := [], error := none },
        none) := by
  simp [handleSearch, searchMoviesStart, h]

theorem C6_blank_query_witness :
    (jsTrim "   ").isEmpty = true ∧
    handleSearch "   " initialState =
      ({ query := "   ", movies := [], page := 1, loading := false,
         error := none, hasMore := true }, none) :=
  ⟨by decide, C6_blank_query "   " initialState (by decide)⟩

/-- C7 fails as stated: on a zero-results response carrying an upstream
`Error` message (as the catalog sends for "no results"), the handler sets the
error state to that message instead of clearing it — here a page-1
zero-results response right after submitting a query leaves
`error = some "Movie not found!"`. -/
theorem C7_counterexample :
    (searchMoviesResponse 1 (FetchOutcome.failure (some "Movie not found!"))
      (handleSearch "zzzz" initialState).1).error ≠ none := by
  decide

/-- C7 (amended): on a zero-results response, the session clears the
accumulated list when the request was for page 1, leaves it as-is for later
pages, and sets `hasMore` to false; the error state is set to the upstream
message when one is present (so zero results displays that message rather
than the retryable network-failure message) and is left unchanged — still
cleared from request issue — only when the upstream sends no message. -/
theorem C7_not_found_empty (st : SearchState) (pageNum : Nat)
    (msg : Option String) :
    (pageNum = 1 →
      (searchMoviesResponse pageNum (FetchOutcome.failure msg) st).movies =
        []) ∧
    (pageNum ≠ 1 →
      (searchMoviesResponse pageNum (FetchOutcome.failure msg) st).movies =
        st.movies) ∧
    (searchMoviesResponse pageNum (FetchOutcome.failure msg) st).hasMore =
      false ∧
    (∀ e, msg = some e →
      (searchMoviesResponse pageNum (FetchOutcome.failure msg) st).error =
        some e) ∧
    (msg = none →
      (searchMoviesResponse pageNum (FetchOutcome.failure msg) st).error =
        st.error) := by
  refine ⟨?_, ?_, ?_, ?_, ?_⟩
  · intro h
    subst h
    simp [searchMoviesResponse]
  · intro h
    have hb : (pageNum == 1) = false := by simpa using h
    simp [searchMoviesResponse, hb]
  · simp [searchMoviesResponse]
  · intro e he
    subst he
    simp [searchMoviesResponse]
  · intro h
    subst h
    simp [searchMoviesResponse]

theorem C7_not_found_empty_witness :
    (searchMoviesResponse 1 (FetchOutcome.failure (some "Movie not found!"))
      initialState).movies = [] :=
  (C7_not_found_empty initialState 1 (some "Movie not found!")).1 rfl

/-- C8: a network failure (thrown fetch or non-ok response) sets the
retryable error message and clears `loading`, while leaving both the
accumulated movie list and `hasMore` exactly as they were when the request
was pending. -/
theorem C8_network_error_frame (st : SearchState) (pageNum : Nat) :
    (searchMoviesResponse pageNum FetchOutcome.networkError st).movies =
      st.movies ∧
    (searchMoviesResponse pageNum FetchOutcome.networkError st).hasMore =
      st.hasMore ∧
    (searchMoviesResponse pageNum FetchOutcome.networkError st).error =
      some "Failed to fetch movies. Please try again." ∧
    (searchMoviesResponse pageNum FetchOutcome.networkError st).loading =
      false :=
  ⟨rfl, rfl, rfl, rfl⟩
